import Mathlib

/-!
Shallow embedding of `src/libopkg/opkg_download_curl.c` (opkg's curl
download backend): the stamp store (`create_file_stamp`,
`check_file_stamp`), the cache validator (`opkg_validate_cached_file`),
the download entry point (`opkg_download_backend`) and the error-message
composition helper (`log_curl_download_error`).

File contents and C strings are modelled as `List Char`; the file system
and the curl handle are modelled by explicit input and output records.
-/

/-- Byte strings: the model of C strings and of file contents. -/
abbrev Bytes := List Char

/-- Chunk size `STAMP_BUF_SIZE` used by `check_file_stamp` in the source. -/
def STAMP_BUF_SIZE : Nat := 10

/-- Loop of `check_file_stamp` (the `while (*stamp)` loop): compare the
stamp file content against the candidate stamp string `STAMP_BUF_SIZE`
bytes at a time.  `content` is the part of the stamp file not yet read and
`stamp` the not-yet-compared tail of the candidate.  The result is `0` when
the loop ends with `diff == 0` and `1` otherwise (the source additionally
returns `-1` on a mid-stream read error, which the model's failure-free
file system never produces).  The three disjuncts are the three terms of
the `diff` expression at lines 236-238 of the source. -/
def checkStampLoop (content stamp : Bytes) : Int :=
  if h : stamp = [] then 0
  else
    let size := min STAMP_BUF_SIZE content.length
    if (size < STAMP_BUF_SIZE ∧ size ≠ stamp.length)
        ∨ (size = STAMP_BUF_SIZE ∧ stamp.length < STAMP_BUF_SIZE)
        ∨ content.take size ≠ stamp.take size
    then 1
    else checkStampLoop (content.drop STAMP_BUF_SIZE) (stamp.drop STAMP_BUF_SIZE)
termination_by stamp.length
decreasing_by
  simp only [List.length_drop, STAMP_BUF_SIZE]
  have hpos : 0 < stamp.length := List.length_pos.mpr h
  omega

/-- Model of `check_file_stamp`: `stampFile` is the content of the derived
stamp file, `none` when that file does not exist.  Returns `0` when the
persisted stamp and `stamp` agree according to the chunked comparison and a
nonzero value otherwise; a missing stamp file yields `-1`. -/
def check_file_stamp (stampFile : Option Bytes) (stamp : Bytes) : Int :=
  match stampFile with
  | none => -1
  | some content => checkStampLoop content stamp

/-- Model of `create_file_stamp`: the content that the stamp file holds
after a successful write is exactly the stamp string, written by
`fwrite(stamp, strlen(stamp), 1, file)` with no framing and no trailing
delimiter. -/
def create_file_stamp (stamp : Bytes) : Bytes := stamp

/-- Boolean form of the stamp store's `matches` operation: the source
treats the persisted stamp as matching exactly when `check_file_stamp`
returns `0` (line 285). -/
def stampMatches (stampFile : Option Bytes) (stamp : Bytes) : Bool :=
  check_file_stamp stampFile stamp == 0

/-- State of the curl-handle options touched by the validator.  The three
callback fields record whether the metadata callbacks are installed
(`true`) or reset to `NULL` (`false`); `header` and `nobody` model
`CURLOPT_HEADER` and `CURLOPT_NOBODY`; `resumeFrom` models
`CURLOPT_RESUME_FROM`. -/
structure CurlOptState where
  writefunction : Bool
  headerfunction : Bool
  writeheader : Bool
  header : Bool
  nobody : Bool
  resumeFrom : Int
deriving Repr, DecidableEq

/-- Option settings at lines 268-272 of the source: install the metadata
callbacks, include headers, suppress the body. -/
def metadataConfig (s : CurlOptState) : CurlOptState :=
  { s with writefunction := true, headerfunction := true, writeheader := true,
           header := true, nobody := true }

/-- Option resets at the `cleanup` label (lines 316-320): callbacks back to
`NULL`, `CURLOPT_HEADER` and `CURLOPT_NOBODY` back to `0`.  The resume
offset is not touched there. -/
def cleanupConfig (s : CurlOptState) : CurlOptState :=
  { s with writefunction := false, headerfunction := false, writeheader := false,
           header := false, nobody := false }

/-- Inputs of one run of `opkg_validate_cached_file`: the behaviour of the
remote side and the state of the local file system. -/
structure ValInput where
  /-- Whether `perform_curl_request` for the metadata request fails. -/
  transportFails : Bool
  /-- Value reported by `CURLINFO_CONTENT_LENGTH_DOWNLOAD`; `-1` when the
  remote size is unknown (also the initial value of `src_size`). -/
  srcSize : Int
  /-- Identity marker extracted by `header_write`; `none` when absent. -/
  etag : Option Bytes
  /-- Whether `file_exists(cache_location)` holds. -/
  cacheExists : Bool
  /-- Length of the cache file when it exists. -/
  cacheLen : Nat
  /-- Content of the derived stamp file; `none` when it does not exist. -/
  stampFile : Option Bytes
  /-- Whether `fopen(cache_location, "ab")` fails. -/
  fopenFails : Bool
  /-- Whether `create_file_stamp` fails (its `-1` return). -/
  stampWriteFails : Bool
deriving Repr, DecidableEq

/-- Observable outcome of one run of `opkg_validate_cached_file`. -/
structure ValOutput where
  /-- The function's return value. -/
  ret : Int
  /-- Whether `unlink(cache_location)` was executed. -/
  unlinked : Bool
  /-- Whether `create_file_stamp` was called. -/
  stampWriteAttempted : Bool
  /-- Whether the stamp-write failure message was logged (line 293). -/
  loggedStampError : Bool
  /-- Content of the stamp file after the run, `none` if it does not exist. -/
  finalStampFile : Option Bytes
  /-- Whether `fopen(cache_location, "ab")` was attempted. -/
  openAttempted : Bool
  /-- Whether the cache file exists after the run. -/
  finalCacheExists : Bool
  /-- Length of the cache file after the run, `0` when it does not exist. -/
  finalCacheLen : Nat
  /-- Value passed to `CURLOPT_RESUME_FROM`, `none` when it was not set. -/
  resumeSet : Option Nat
deriving Repr, DecidableEq

/-- Freshness test of the validator (the `match` flag, lines 283-289): the
cache file exists, a marker was obtained and the persisted stamp matches
it.  The `etag && ...` short-circuit of the source is the `match` on
`inp.etag`. -/
def cacheFresh (inp : ValInput) : Bool :=
  inp.cacheExists &&
    match inp.etag with
    | some e => check_file_stamp inp.stampFile e == 0
    | none => false

/-- Model of `opkg_validate_cached_file` (lines 259-322), threading the
curl-handle option state through the call.  The branches follow the source:
transport failure returns `-1` through `cleanup`; otherwise the freshness
check may unlink the cache file and rewrite the stamp; `fopen` failure
returns `-1`; otherwise `resume_from < src_size` decides between setting
`CURLOPT_RESUME_FROM` (return `1`) and returning `0`. -/
def opkg_validate_cached_file (pre : CurlOptState) (inp : ValInput) :
    CurlOptState × ValOutput :=
  let s := metadataConfig pre
  if inp.transportFails then
    (cleanupConfig s,
      { ret := -1, unlinked := false, stampWriteAttempted := false,
        loggedStampError := false, finalStampFile := inp.stampFile,
        openAttempted := false, finalCacheExists := inp.cacheExists,
        finalCacheLen := inp.cacheLen, resumeSet := none })
  else
    let matched := cacheFresh inp
    let unlinked := inp.cacheExists && !matched
    let existsAfterUnlink := inp.cacheExists && !unlinked
    let attempt := !matched && inp.etag.isSome
    let newStampFile :=
      if attempt && !inp.stampWriteFails then
        some (create_file_stamp (inp.etag.getD []))
      else inp.stampFile
    let logged := attempt && inp.stampWriteFails
    if inp.fopenFails then
      (cleanupConfig s,
        { ret := -1, unlinked := unlinked, stampWriteAttempted := attempt,
          loggedStampError := logged, finalStampFile := newStampFile,
          openAttempted := true, finalCacheExists := existsAfterUnlink,
          finalCacheLen := if existsAfterUnlink = true then inp.cacheLen else 0,
          resumeSet := none })
    else
      let resume_from : Nat := if existsAfterUnlink = true then inp.cacheLen else 0
      if (resume_from : Int) < inp.srcSize then
        (cleanupConfig { s with resumeFrom := (resume_from : Int) },
          { ret := 1, unlinked := unlinked, stampWriteAttempted := attempt,
            loggedStampError := logged, finalStampFile := newStampFile,
            openAttempted := true, finalCacheExists := true,
            finalCacheLen := resume_from, resumeSet := some resume_from })
      else
        (cleanupConfig s,
          { ret := 0, unlinked := unlinked, stampWriteAttempted := attempt,
            loggedStampError := logged, finalStampFile := newStampFile,
            openAttempted := true, finalCacheExists := true,
            finalCacheLen := resume_from, resumeSet := none })

/-- Local cache length seen by the resume arithmetic (the `ftell` at line
303): the pre-validation length when the cache file was kept, `0` when the
file was absent or was deleted and recreated empty by `fopen("ab")`. -/
def localLenAtResume (inp : ValInput) : Nat :=
  if cacheFresh inp then inp.cacheLen else 0

/-- Model of `opkg_download_backend` (lines 325-384) restricted to the
cache/transfer control flow.  The result pairs the return code with whether
a body transfer was performed (`perform_curl_request` at line 376 reached).
With `use_cache`, a validator result `<= 0` is returned unchanged with no
body transfer; otherwise the body is fetched, `-1` on destination-open or
transport failure. -/
def opkg_download_backend (pre : CurlOptState) (inp : ValInput)
    (use_cache : Bool) (destOpenFails bodyFails : Bool) : Int × Bool :=
  if use_cache then
    let v := opkg_validate_cached_file pre inp
    if v.2.ret ≤ 0 then (v.2.ret, false)
    else if destOpenFails then (-1, false)
    else if bodyFails then (-1, true)
    else (0, true)
  else
    if destOpenFails then (-1, false)
    else if bodyFails then (-1, true)
    else (0, true)

/-- Error text chosen by `log_curl_download_error` (lines 96-98): the curl
error buffer when non-empty, otherwise the `curl_easy_strerror` text. -/
def curl_err_text (errorbuffer strerrorText : Bytes) : Bytes :=
  if errorbuffer.length ≠ 0 then errorbuffer else strerrorText

/-- The `has_trailing_newline` flag (lines 102-103): the error buffer is
non-empty and its last byte is a newline. -/
def has_trailing_newline (errorbuffer : Bytes) : Bool :=
  decide (errorbuffer.length ≠ 0) && (errorbuffer.getLast? == some '\n')

/-- Model of `log_curl_download_error` (lines 94-109): the message produced
by the `opkg_msg(ERROR, "%s %s: %s%s", ...)` format, with `strerrorText`
standing for the `curl_easy_strerror(res)` result. -/
def log_curl_download_error (msg src_url errorbuffer strerrorText : Bytes) :
    Bytes :=
  msg ++ [' '] ++ src_url ++ [':', ' '] ++ curl_err_text errorbuffer strerrorText ++
    (if has_trailing_newline errorbuffer then [] else ['\n'])

/-- Predicate used by the spec's error-message property: the message ends
in a newline and the byte before that final newline, when present, is not
itself a newline. -/
def endsWithExactlyOneNewline (l : Bytes) : Prop :=
  l.reverse.head? = some '\n' ∧ ¬ l.reverse.tail.head? = some '\n'

instance (l : Bytes) : Decidable (endsWithExactlyOneNewline l) := by
  unfold endsWithExactlyOneNewline
  infer_instance

/-- Curl-handle option state for a plain body transfer: no metadata
callbacks installed, headers excluded, body enabled, some resume offset
`r`. -/
def bodyConfig (r : Int) : CurlOptState :=
  { writefunction := false, headerfunction := false, writeheader := false,
    header := false, nobody := false, resumeFrom := r }

theorem checkStampLoop_nil (content : Bytes) : checkStampLoop content [] = 0 := by
  rw [checkStampLoop]
  simp

theorem checkStampLoop_eq_zero_bounded :
    ∀ (n : Nat) (stamp content : Bytes), stamp.length ≤ n →
      (checkStampLoop content stamp = 0 ↔
        (if stamp.length % STAMP_BUF_SIZE = 0
         then content.take stamp.length = stamp
         else content = stamp)) := by
  intro n
  induction n with
  | zero =>
    intro stamp content h
    have hs : stamp = [] := List.eq_nil_of_length_eq_zero (Nat.le_zero.mp h)
    subst hs
    simp [checkStampLoop_nil, STAMP_BUF_SIZE]
  | succ n ih =>
    intro stamp content h
    by_cases hs : stamp = []
    · subst hs
      simp [checkStampLoop_nil, STAMP_BUF_SIZE]
    · rw [checkStampLoop, dif_neg hs]
      simp only [STAMP_BUF_SIZE] at ih ⊢
      have hslen : 0 < stamp.length := List.length_pos.mpr hs
      rcases Nat.lt_or_ge content.length 10 with hc | hc
      · -- short read: size = content.length < 10
        have hmin : min 10 content.length = content.length :=
          Nat.min_eq_right (Nat.le_of_lt hc)
        simp only [hmin, List.take_length]
        by_cases hm : stamp.length % 10 = 0
        · -- candidate length a chunk multiple forces 10 <= stamp.length
          rw [if_pos hm]
          have h10 : 10 ≤ stamp.length := by omega
          refine iff_of_false ?_ ?_
          · rw [if_pos (Or.inl ⟨hc, by omega⟩)]
            norm_num
          · intro hR
            have hlen := congrArg List.length hR
            simp only [List.length_take] at hlen
            omega
        · rw [if_neg hm]
          by_cases hEq : content = stamp
          · subst hEq
            rw [if_neg (by simp [List.take_length]; omega)]
            have hdrop : content.drop 10 = [] :=
              List.drop_eq_nil_of_le (by omega)
            rw [hdrop, checkStampLoop_nil]
            exact iff_of_true rfl rfl
          · have hC : (content.length < 10 ∧ content.length ≠ stamp.length)
                ∨ (content.length = 10 ∧ stamp.length < 10)
                ∨ content ≠ stamp.take content.length := by
              by_cases hl : content.length = stamp.length
              · right; right
                rw [hl, List.take_length]
                exact hEq
              · exact Or.inl ⟨hc, hl⟩
            rw [if_pos hC]
            exact iff_of_false (by norm_num) hEq
      · -- full chunk: size = 10
        have hmin : min 10 content.length = 10 := Nat.min_eq_left hc
        simp only [hmin, lt_irrefl, false_and, false_or, true_and]
        have hdl : (stamp.drop 10).length ≤ n := by
          simp only [List.length_drop]
          omega
        by_cases hm : stamp.length % 10 = 0
        · rw [if_pos hm]
          have h10 : 10 ≤ stamp.length := by omega
          split_ifs with hd
          · refine iff_of_false (by norm_num) ?_
            rcases hd with hshort | hne
            · omega
            · intro hR
              apply hne
              have htk := congrArg (List.take 10) hR
              rwa [List.take_take, Nat.min_eq_left h10] at htk
          · push_neg at hd
            obtain ⟨hge, htk⟩ := hd
            rw [ih (stamp.drop 10) (content.drop 10) hdl]
            simp only [List.length_drop]
            have hmod : (stamp.length - 10) % 10 = 0 := by omega
            rw [if_pos hmod]
            constructor
            · intro hrec
              have hsplit : content.take stamp.length
                  = content.take 10 ++ (content.drop 10).take (stamp.length - 10) := by
                rw [← List.take_add]
                congr 1
                omega
              rw [hsplit, hrec, htk, List.take_append_drop]
            · intro hR
              have hdropped := congrArg (List.drop 10) hR
              rwa [List.drop_take] at hdropped
        · rw [if_neg hm]
          split_ifs with hd
          · refine iff_of_false (by norm_num) ?_
            rcases hd with hshort | hne
            · intro hR
              have hlen := congrArg List.length hR
              omega
            · intro hR
              exact hne (by rw [hR])
          · push_neg at hd
            obtain ⟨hge, htk⟩ := hd
            rw [ih (stamp.drop 10) (content.drop 10) hdl]
            simp only [List.length_drop]
            have hmod : ¬ (stamp.length - 10) % 10 = 0 := by omega
            rw [if_neg hmod]
            constructor
            · intro hrec
              calc content = content.take 10 ++ content.drop 10 :=
                    (List.take_append_drop _ _).symm
                _ = stamp.take 10 ++ stamp.drop 10 := by rw [htk, hrec]
                _ = stamp := List.take_append_drop _ _
            · intro hR
              rw [hR]

theorem check_file_stamp_eq_zero_iff (stampFileContent stamp : Bytes) :
    check_file_stamp (some stampFileContent) stamp = 0 ↔
      (if stamp.length % STAMP_BUF_SIZE = 0
       then stampFileContent.take stamp.length = stamp
       else stampFileContent = stamp) :=
  checkStampLoop_eq_zero_bounded stamp.length stamp stampFileContent le_rfl

theorem existsAfterUnlink_eq (inp : ValInput) :
    (inp.cacheExists && !(inp.cacheExists && !cacheFresh inp)) = cacheFresh inp := by
  cases hc : inp.cacheExists
  · simp [cacheFresh, hc]
  · simp [cacheFresh, hc]

/-- C4: for every string `s` — empty, an exact multiple of the 10-byte
chunk size, or not — writing the stamp `s` and then checking it against
the same path returns a match: `write(p, s)` followed by `matches(p, s)`
is true. -/
theorem C4_stamp_round_trip (s : Bytes) :
    stampMatches (some (create_file_stamp s)) s = true := by
  simp only [stampMatches, beq_iff_eq, create_file_stamp]
  rw [check_file_stamp_eq_zero_iff]
  split_ifs with hm
  · exact List.take_length s
  · rfl

/-- C3 counterexample: after writing the 11-byte stamp
`"aaaaaaaaaab"`, the distinct 10-byte candidate `"aaaaaaaaaa"` (a
chunk-aligned initial segment of the written stamp) still matches, so
`matches` is not equivalent to byte-identical content. -/
theorem C3_counterexample :
    stampMatches
        (some (create_file_stamp ['a','a','a','a','a','a','a','a','a','a','b']))
        ['a','a','a','a','a','a','a','a','a','a'] = true
      ∧ (['a','a','a','a','a','a','a','a','a','a'] : Bytes)
          ≠ ['a','a','a','a','a','a','a','a','a','a','b'] := by
  constructor
  · simp [stampMatches, create_file_stamp, check_file_stamp, checkStampLoop,
      STAMP_BUF_SIZE]
  · decide

/-- C3 amended: `matches(p, s)` is true iff the stamp file exists and
either the length of `s` is a multiple of the 10-byte chunk size and `s`
is an initial segment of the persisted content, or the length of `s` is
not a multiple and the persisted content is byte-identical to `s`; hence
after `write(p, s2)` with `s ≠ s2` a match is reported exactly when the
length of `s` is a multiple of the chunk size and `s` is a proper initial
segment of `s2`. -/
theorem C3_stamp_matches_characterisation (stampFile : Option Bytes) (s s2 : Bytes) :
    (stampMatches stampFile s = true ↔
      ∃ content, stampFile = some content ∧
        (if s.length % STAMP_BUF_SIZE = 0
         then content.take s.length = s
         else content = s)) ∧
    (s ≠ s2 →
      (stampMatches (some (create_file_stamp s2)) s = true ↔
        (s.length % STAMP_BUF_SIZE = 0 ∧ s2.take s.length = s))) := by
  constructor
  · cases stampFile with
    | none => simp [stampMatches, check_file_stamp]
    | some content =>
      simp only [stampMatches, beq_iff_eq, Option.some.injEq, exists_eq_left']
      exact check_file_stamp_eq_zero_iff content s
  · intro hne
    simp only [stampMatches, beq_iff_eq, create_file_stamp]
    rw [check_file_stamp_eq_zero_iff]
    split_ifs with hm
    · simp [hm]
    · simp only [hm, false_and, iff_false]
      intro hR
      exact hne hR.symm

theorem C3_stamp_matches_characterisation_witness :
    stampMatches (some (create_file_stamp ['x'])) [] = true ↔
      (List.length ([] : Bytes) % STAMP_BUF_SIZE = 0
        ∧ List.take (List.length ([] : Bytes)) ['x'] = []) :=
  (C3_stamp_matches_characterisation (some ['x']) [] ['x']).2 (by decide)

/-- C9: when the metadata-only transport request fails, the validator
returns `-1` without touching local state: the cache file is not
unlinked, `fopen` on it is never attempted, no stamp write is attempted,
and both the stamp file and the cache file are exactly as before. -/
theorem C9_transport_error_atomic (pre : CurlOptState) (inp : ValInput)
    (htr : inp.transportFails = true) :
    (opkg_validate_cached_file pre inp).2.ret = -1 ∧
    (opkg_validate_cached_file pre inp).2.unlinked = false ∧
    (opkg_validate_cached_file pre inp).2.openAttempted = false ∧
    (opkg_validate_cached_file pre inp).2.stampWriteAttempted = false ∧
    (opkg_validate_cached_file pre inp).2.finalStampFile = inp.stampFile ∧
    (opkg_validate_cached_file pre inp).2.finalCacheExists = inp.cacheExists ∧
    (opkg_validate_cached_file pre inp).2.finalCacheLen = inp.cacheLen := by
  simp [opkg_validate_cached_file, htr]

theorem C9_transport_error_atomic_witness :
    (opkg_validate_cached_file (bodyConfig 0)
        { transportFails := true, srcSize := -1, etag := none,
          cacheExists := true, cacheLen := 400, stampFile := some ['a','b','c'],
          fopenFails := false, stampWriteFails := false }).2.ret = -1 ∧
    (opkg_validate_cached_file (bodyConfig 0)
        { transportFails := true, srcSize := -1, etag := none,
          cacheExists := true, cacheLen := 400, stampFile := some ['a','b','c'],
          fopenFails := false, stampWriteFails := false }).2.unlinked = false ∧
    (opkg_validate_cached_file (bodyConfig 0)
        { transportFails := true, srcSize := -1, etag := none,
          cacheExists := true, cacheLen := 400, stampFile := some ['a','b','c'],
          fopenFails := false, stampWriteFails := false }).2.openAttempted = false ∧
    (opkg_validate_cached_file (bodyConfig 0)
        { transportFails := true, srcSize := -1, etag := none,
          cacheExists := true, cacheLen := 400, stampFile := some ['a','b','c'],
          fopenFails := false, stampWriteFails := false }).2.stampWriteAttempted = false ∧
    (opkg_validate_cached_file (bodyConfig 0)
        { transportFails := true, srcSize := -1, etag := none,
          cacheExists := true, cacheLen := 400, stampFile := some ['a','b','c'],
          fopenFails := false, stampWriteFails := false }).2.finalStampFile = some ['a','b','c'] ∧
    (opkg_validate_cached_file (bodyConfig 0)
        { transportFails := true, srcSize := -1, etag := none,
          cacheExists := true, cacheLen := 400, stampFile := some ['a','b','c'],
          fopenFails := false, stampWriteFails := false }).2.finalCacheExists = true ∧
    (opkg_validate_cached_file (bodyConfig 0)
        { transportFails := true, srcSize := -1, etag := none,
          cacheExists := true, cacheLen := 400, stampFile := some ['a','b','c'],
          fopenFails := false, stampWriteFails := false }).2.finalCacheLen = 400 :=
  C9_transport_error_atomic (bodyConfig 0) _ rfl

/-- Helper: the `resume_from` value computed by the validator's `ftell`
equals `localLenAtResume`. -/
theorem resume_len_eq (inp : ValInput) :
    (if (inp.cacheExists && !(inp.cacheExists && !cacheFresh inp)) = true
     then inp.cacheLen else 0) = localLenAtResume inp := by
  rw [existsAfterUnlink_eq]
  rfl

/-- Helper: on the no-error path the return code and the resume offset are
decided by comparing `localLenAtResume` with the reported remote size. -/
theorem validate_noerror (pre : CurlOptState) (inp : ValInput)
    (htr : inp.transportFails = false) (hop : inp.fopenFails = false) :
    ((opkg_validate_cached_file pre inp).2.ret
        = if (localLenAtResume inp : Int) < inp.srcSize then 1 else 0) ∧
    ((opkg_validate_cached_file pre inp).2.resumeSet
        = if (localLenAtResume inp : Int) < inp.srcSize
          then some (localLenAtResume inp) else none) := by
  simp only [opkg_validate_cached_file, htr, hop, Bool.false_eq_true, if_false,
    resume_len_eq]
  by_cases hcmp : ((localLenAtResume inp : Int) < inp.srcSize)
  · rw [if_pos hcmp, if_pos hcmp, if_pos hcmp]
    exact ⟨rfl, rfl⟩
  · rw [if_neg hcmp, if_neg hcmp, if_neg hcmp]
    exact ⟨rfl, rfl⟩

/-- Helper: the unlink, stamp-write and log effects of a validator run
whose metadata request succeeded. -/
theorem validate_effects (pre : CurlOptState) (inp : ValInput)
    (htr : inp.transportFails = false) :
    ((opkg_validate_cached_file pre inp).2.unlinked
        = (inp.cacheExists && !cacheFresh inp)) ∧
    ((opkg_validate_cached_file pre inp).2.stampWriteAttempted
        = (!cacheFresh inp && inp.etag.isSome)) ∧
    ((opkg_validate_cached_file pre inp).2.loggedStampError
        = (!cacheFresh inp && inp.etag.isSome && inp.stampWriteFails)) ∧
    ((opkg_validate_cached_file pre inp).2.finalStampFile
        = if (!cacheFresh inp && inp.etag.isSome && !inp.stampWriteFails) = true
          then some (create_file_stamp (inp.etag.getD []))
          else inp.stampFile) := by
  simp only [opkg_validate_cached_file, htr, Bool.false_eq_true, if_false,
    resume_len_eq]
  by_cases hop : inp.fopenFails = true
  · rw [if_pos hop]
    exact ⟨rfl, rfl, rfl, rfl⟩
  · rw [if_neg hop]
    by_cases hcmp : ((localLenAtResume inp : Int) < inp.srcSize)
    · rw [if_pos hcmp]
      exact ⟨rfl, rfl, rfl, rfl⟩
    · rw [if_neg hcmp]
      exact ⟨rfl, rfl, rfl, rfl⟩

/-- Claim C1: when the remote reports a definite size `R` and the local
cache file has length `L` at the resume-arithmetic step, `L < R` yields the
verdict ResumeFrom(L) — return code 1 with the resume offset set to `L` —
and `L ≥ R` yields Complete — return code 0, no offset set, and no body
transfer performed by `opkg_download_backend`; a negative return code
occurs only on a transport or file-open error. -/
theorem C1_resume_arithmetic (pre : CurlOptState) (inp : ValInput) (R : Int)
    (htr : inp.transportFails = false) (hop : inp.fopenFails = false)
    (hR : inp.srcSize = R) (hRdef : 0 ≤ R) :
    (((localLenAtResume inp : Int) < R →
        (opkg_validate_cached_file pre inp).2.ret = 1 ∧
          (opkg_validate_cached_file pre inp).2.resumeSet = some (localLenAtResume inp)) ∧
      (R ≤ (localLenAtResume inp : Int) →
        (opkg_validate_cached_file pre inp).2.ret = 0 ∧
          (opkg_validate_cached_file pre inp).2.resumeSet = none ∧
          opkg_download_backend pre inp true false false = (0, false)) ∧
      0 ≤ (opkg_validate_cached_file pre inp).2.ret) ∧
    (∀ (pre' : CurlOptState) (inp' : ValInput),
      (opkg_validate_cached_file pre' inp').2.ret < 0 →
        inp'.transportFails = true ∨ inp'.fopenFails = true) := by
  obtain ⟨hret, hres⟩ := validate_noerror pre inp htr hop
  rw [hR] at hret hres
  constructor
  · refine ⟨fun hlt => ?_, fun hge => ?_, ?_⟩
    · rw [hret, hres, if_pos hlt, if_pos hlt]
      exact ⟨rfl, rfl⟩
    · have hnlt : ¬ ((localLenAtResume inp : Int) < R) := by omega
      rw [hret, hres, if_neg hnlt, if_neg hnlt]
      refine ⟨rfl, rfl, ?_⟩
      have h0 : (opkg_validate_cached_file pre inp).2.ret = 0 := by
        rw [hret, if_neg hnlt]
      simp [opkg_download_backend, h0]
    · rw [hret]
      split_ifs <;> norm_num
  · intro pre' inp' hneg
    by_cases h1 : inp'.transportFails = true
    · exact Or.inl h1
    · by_cases h2 : inp'.fopenFails = true
      · exact Or.inr h2
      · exfalso
        have hret' := (validate_noerror pre' inp' (by simpa using h1) (by simpa using h2)).1
        rw [hret'] at hneg
        split_ifs at hneg <;> omega

/-- Witness for C1 at a fresh cache of length 5 against remote size 10. -/
theorem C1_resume_arithmetic_witness :
    ((((localLenAtResume
          { transportFails := false, srcSize := 10, etag := some ['a'],
            cacheExists := true, cacheLen := 5, stampFile := some ['a'],
            fopenFails := false, stampWriteFails := false } : Nat) : Int) < 10 →
        (opkg_validate_cached_file (bodyConfig 0)
          { transportFails := false, srcSize := 10, etag := some ['a'],
            cacheExists := true, cacheLen := 5, stampFile := some ['a'],
            fopenFails := false, stampWriteFails := false }).2.ret = 1 ∧
          (opkg_validate_cached_file (bodyConfig 0)
            { transportFails := false, srcSize := 10, etag := some ['a'],
              cacheExists := true, cacheLen := 5, stampFile := some ['a'],
              fopenFails := false, stampWriteFails := false }).2.resumeSet
            = some (localLenAtResume
                { transportFails := false, srcSize := 10, etag := some ['a'],
                  cacheExists := true, cacheLen := 5, stampFile := some ['a'],
                  fopenFails := false, stampWriteFails := false })) ∧
      ((10 : Int) ≤ ((localLenAtResume
          { transportFails := false, srcSize := 10, etag := some ['a'],
            cacheExists := true, cacheLen := 5, stampFile := some ['a'],
            fopenFails := false, stampWriteFails := false } : Nat) : Int) →
        (opkg_validate_cached_file (bodyConfig 0)
          { transportFails := false, srcSize := 10, etag := some ['a'],
            cacheExists := true, cacheLen := 5, stampFile := some ['a'],
            fopenFails := false, stampWriteFails := false }).2.ret = 0 ∧
          (opkg_validate_cached_file (bodyConfig 0)
            { transportFails := false, srcSize := 10, etag := some ['a'],
              cacheExists := true, cacheLen := 5, stampFile := some ['a'],
              fopenFails := false, stampWriteFails := false }).2.resumeSet = none ∧
          opkg_download_backend (bodyConfig 0)
            { transportFails := false, srcSize := 10, etag := some ['a'],
              cacheExists := true, cacheLen := 5, stampFile := some ['a'],
              fopenFails := false, stampWriteFails := false } true false false
            = (0, false)) ∧
      0 ≤ (opkg_validate_cached_file (bodyConfig 0)
          { transportFails := false, srcSize := 10, etag := some ['a'],
            cacheExists := true, cacheLen := 5, stampFile := some ['a'],
            fopenFails := false, stampWriteFails := false }).2.ret) ∧
    (∀ (pre' : CurlOptState) (inp' : ValInput),
      (opkg_validate_cached_file pre' inp').2.ret < 0 →
        inp'.transportFails = true ∨ inp'.fopenFails = true) :=
  C1_resume_arithmetic (bodyConfig 0) _ 10 rfl rfl rfl (by norm_num)

/-- Helper: freshness does not depend on the stamp-write failure flag. -/
theorem cacheFresh_set_swf (inp : ValInput) (b : Bool) :
    cacheFresh { inp with stampWriteFails := b } = cacheFresh inp := by
  simp [cacheFresh]

/-- C5 counterexample: a cache file of length 400 with persisted stamp
`"abc"` and fresh marker `"xyz"` is deleted and restamped, but with a
reported remote size of 0 the verdict is Complete (return 0, no resume
offset), not Restart, refuting `regardless of the prior local file
length` as stated. -/
theorem C5_counterexample :
    check_file_stamp (some ['a','b','c']) ['x','y','z'] ≠ 0 ∧
    (opkg_validate_cached_file (bodyConfig 0)
        { transportFails := false, srcSize := 0, etag := some ['x','y','z'],
          cacheExists := true, cacheLen := 400, stampFile := some ['a','b','c'],
          fopenFails := false, stampWriteFails := false }).2.unlinked = true ∧
    (opkg_validate_cached_file (bodyConfig 0)
        { transportFails := false, srcSize := 0, etag := some ['x','y','z'],
          cacheExists := true, cacheLen := 400, stampFile := some ['a','b','c'],
          fopenFails := false, stampWriteFails := false }).2.finalStampFile
      = some ['x','y','z'] ∧
    (opkg_validate_cached_file (bodyConfig 0)
        { transportFails := false, srcSize := 0, etag := some ['x','y','z'],
          cacheExists := true, cacheLen := 400, stampFile := some ['a','b','c'],
          fopenFails := false, stampWriteFails := false }).2.ret = 0 ∧
    (opkg_validate_cached_file (bodyConfig 0)
        { transportFails := false, srcSize := 0, etag := some ['x','y','z'],
          cacheExists := true, cacheLen := 400, stampFile := some ['a','b','c'],
          fopenFails := false, stampWriteFails := false }).2.resumeSet = none := by
  refine ⟨?_, ?_⟩
  · simp [check_file_stamp, checkStampLoop, STAMP_BUF_SIZE]
  · simp [opkg_validate_cached_file, cacheFresh, check_file_stamp, checkStampLoop,
      STAMP_BUF_SIZE, create_file_stamp]

/-- Claim C5 (amended): when the cache file exists, a marker was obtained
and the persisted stamp does not match it, the file is deleted and a new
stamp holding the marker is written; the verdict is Restart — return code
1 with resume offset 0 regardless of the prior length — provided the
remote reports a positive size, while a size that is zero or unknown (-1)
makes the validator return Complete (0) instead. -/
theorem C5_stale_restart (pre : CurlOptState) (inp : ValInput) (e : Bytes)
    (htr : inp.transportFails = false) (hop : inp.fopenFails = false)
    (hex : inp.cacheExists = true) (hetag : inp.etag = some e)
    (hmm : check_file_stamp inp.stampFile e ≠ 0)
    (hwr : inp.stampWriteFails = false) :
    (opkg_validate_cached_file pre inp).2.unlinked = true ∧
    (opkg_validate_cached_file pre inp).2.finalStampFile = some (create_file_stamp e) ∧
    (0 < inp.srcSize →
      (opkg_validate_cached_file pre inp).2.ret = 1 ∧
        (opkg_validate_cached_file pre inp).2.resumeSet = some 0) ∧
    (inp.srcSize ≤ 0 →
      (opkg_validate_cached_file pre inp).2.ret = 0 ∧
        (opkg_validate_cached_file pre inp).2.resumeSet = none) := by
  have hfresh : cacheFresh inp = false := by
    simp [cacheFresh, hetag, hmm]
  have hL : localLenAtResume inp = 0 := by
    simp [localLenAtResume, hfresh]
  obtain ⟨hret, hres⟩ := validate_noerror pre inp htr hop
  obtain ⟨hunl, hatt, hlog, hstamp⟩ := validate_effects pre inp htr
  rw [hL] at hret hres
  simp only [Nat.cast_zero] at hret hres
  refine ⟨?_, ?_, fun hpos => ?_, fun hnp => ?_⟩
  · rw [hunl, hfresh, hex]
    rfl
  · rw [hstamp, hfresh, hetag, hwr]
    simp
  · rw [hret, hres, if_pos hpos, if_pos hpos]
    exact ⟨rfl, rfl⟩
  · have hnlt : ¬ ((0 : Int) < inp.srcSize) := by omega
    rw [hret, hres, if_neg hnlt, if_neg hnlt]
    exact ⟨rfl, rfl⟩

/-- Witness for C5 with remote size 1000, stale stamp and length 400. -/
theorem C5_stale_restart_witness :
    (opkg_validate_cached_file (bodyConfig 0)
        { transportFails := false, srcSize := 1000, etag := some ['x','y','z'],
          cacheExists := true, cacheLen := 400, stampFile := some ['a','b','c'],
          fopenFails := false, stampWriteFails := false }).2.unlinked = true ∧
    (opkg_validate_cached_file (bodyConfig 0)
        { transportFails := false, srcSize := 1000, etag := some ['x','y','z'],
          cacheExists := true, cacheLen := 400, stampFile := some ['a','b','c'],
          fopenFails := false, stampWriteFails := false }).2.finalStampFile
      = some (create_file_stamp ['x','y','z']) ∧
    ((0 : Int) < 1000 →
      (opkg_validate_cached_file (bodyConfig 0)
          { transportFails := false, srcSize := 1000, etag := some ['x','y','z'],
            cacheExists := true, cacheLen := 400, stampFile := some ['a','b','c'],
            fopenFails := false, stampWriteFails := false }).2.ret = 1 ∧
        (opkg_validate_cached_file (bodyConfig 0)
            { transportFails := false, srcSize := 1000, etag := some ['x','y','z'],
              cacheExists := true, cacheLen := 400, stampFile := some ['a','b','c'],
              fopenFails := false, stampWriteFails := false }).2.resumeSet = some 0) ∧
    ((1000 : Int) ≤ 0 →
      (opkg_validate_cached_file (bodyConfig 0)
          { transportFails := false, srcSize := 1000, etag := some ['x','y','z'],
            cacheExists := true, cacheLen := 400, stampFile := some ['a','b','c'],
            fopenFails := false, stampWriteFails := false }).2.ret = 0 ∧
        (opkg_validate_cached_file (bodyConfig 0)
            { transportFails := false, srcSize := 1000, etag := some ['x','y','z'],
              cacheExists := true, cacheLen := 400, stampFile := some ['a','b','c'],
              fopenFails := false, stampWriteFails := false }).2.resumeSet = none) :=
  C5_stale_restart (bodyConfig 0) _ ['x','y','z'] rfl rfl rfl rfl
    (by simp [check_file_stamp, checkStampLoop, STAMP_BUF_SIZE]) rfl

/-- C6 counterexample: with an existing 400-byte cache file and no
identity marker in the response, the validator deletes the file
(`unlinked = true`) and resumes from offset 0, not from the existing
length 400, refuting the claim that the file is kept. -/
theorem C6_counterexample :
    (opkg_validate_cached_file (bodyConfig 0)
        { transportFails := false, srcSize := 1000, etag := none,
          cacheExists := true, cacheLen := 400, stampFile := some ['a','b','c'],
          fopenFails := false, stampWriteFails := false }).2.unlinked = true ∧
    (opkg_validate_cached_file (bodyConfig 0)
        { transportFails := false, srcSize := 1000, etag := none,
          cacheExists := true, cacheLen := 400, stampFile := some ['a','b','c'],
          fopenFails := false, stampWriteFails := false }).2.resumeSet = some 0 := by
  simp [opkg_validate_cached_file, cacheFresh]

/-- Claim C6 (amended): when the cache file exists but the response
yields no identity marker, the validator writes no stamp and leaves the
stamp file untouched, but it does delete the cache file (the `else
unlink` branch), so the resume arithmetic runs over the recreated empty
file: offset 0, return 1 when the remote size is positive, Complete (0)
otherwise. -/
theorem C6_no_marker (pre : CurlOptState) (inp : ValInput)
    (htr : inp.transportFails = false) (hop : inp.fopenFails = false)
    (hex : inp.cacheExists = true) (hetag : inp.etag = none) :
    (opkg_validate_cached_file pre inp).2.unlinked = true ∧
    (opkg_validate_cached_file pre inp).2.stampWriteAttempted = false ∧
    (opkg_validate_cached_file pre inp).2.finalStampFile = inp.stampFile ∧
    (0 < inp.srcSize →
      (opkg_validate_cached_file pre inp).2.ret = 1 ∧
        (opkg_validate_cached_file pre inp).2.resumeSet = some 0) ∧
    (inp.srcSize ≤ 0 →
      (opkg_validate_cached_file pre inp).2.ret = 0 ∧
        (opkg_validate_cached_file pre inp).2.resumeSet = none) := by
  have hfresh : cacheFresh inp = false := by
    simp [cacheFresh, hetag]
  have hL : localLenAtResume inp = 0 := by
    simp [localLenAtResume, hfresh]
  obtain ⟨hret, hres⟩ := validate_noerror pre inp htr hop
  obtain ⟨hunl, hatt, hlog, hstamp⟩ := validate_effects pre inp htr
  rw [hL] at hret hres
  simp only [Nat.cast_zero] at hret hres
  refine ⟨?_, ?_, ?_, fun hpos => ?_, fun hnp => ?_⟩
  · rw [hunl, hfresh, hex]
    rfl
  · rw [hatt, hetag]
    simp
  · rw [hstamp, hetag]
    simp
  · rw [hret, hres, if_pos hpos, if_pos hpos]
    exact ⟨rfl, rfl⟩
  · have hnlt : ¬ ((0 : Int) < inp.srcSize) := by omega
    rw [hret, hres, if_neg hnlt, if_neg hnlt]
    exact ⟨rfl, rfl⟩

/-- Witness for C6 with remote size 1000 and a 400-byte cache file. -/
theorem C6_no_marker_witness :
    (opkg_validate_cached_file (bodyConfig 0)
        { transportFails := false, srcSize := 1000, etag := none,
          cacheExists := true, cacheLen := 400, stampFile := some ['a','b','c'],
          fopenFails := false, stampWriteFails := false }).2.unlinked = true ∧
    (opkg_validate_cached_file (bodyConfig 0)
        { transportFails := false, srcSize := 1000, etag := none,
          cacheExists := true, cacheLen := 400, stampFile := some ['a','b','c'],
          fopenFails := false, stampWriteFails := false }).2.stampWriteAttempted = false ∧
    (opkg_validate_cached_file (bodyConfig 0)
        { transportFails := false, srcSize := 1000, etag := none,
          cacheExists := true, cacheLen := 400, stampFile := some ['a','b','c'],
          fopenFails := false, stampWriteFails := false }).2.finalStampFile
      = some ['a','b','c'] ∧
    ((0 : Int) < 1000 →
      (opkg_validate_cached_file (bodyConfig 0)
          { transportFails := false, srcSize := 1000, etag := none,
            cacheExists := true, cacheLen := 400, stampFile := some ['a','b','c'],
            fopenFails := false, stampWriteFails := false }).2.ret = 1 ∧
        (opkg_validate_cached_file (bodyConfig 0)
            { transportFails := false, srcSize := 1000, etag := none,
              cacheExists := true, cacheLen := 400, stampFile := some ['a','b','c'],
              fopenFails := false, stampWriteFails := false }).2.resumeSet = some 0) ∧
    ((1000 : Int) ≤ 0 →
      (opkg_validate_cached_file (bodyConfig 0)
          { transportFails := false, srcSize := 1000, etag := none,
            cacheExists := true, cacheLen := 400, stampFile := some ['a','b','c'],
            fopenFails := false, stampWriteFails := false }).2.ret = 0 ∧
        (opkg_validate_cached_file (bodyConfig 0)
            { transportFails := false, srcSize := 1000, etag := none,
              cacheExists := true, cacheLen := 400, stampFile := some ['a','b','c'],
              fopenFails := false, stampWriteFails := false }).2.resumeSet = none) :=
  C6_no_marker (bodyConfig 0) _ rfl rfl rfl rfl

/-- Claim C7: when the cache is not fresh and a marker was obtained, a
failing stamp write is non-fatal: the failure is logged and the return
code, resume offset, unlink effect, final cache state and curl-handle
state are identical to the run in which the stamp write succeeds. -/
theorem C7_stamp_write_nonfatal (pre : CurlOptState) (inpF inpS : ValInput)
    (hFS : inpF = { inpS with stampWriteFails := true })
    (htr : inpS.transportFails = false)
    (hfresh : cacheFresh inpS = false) (hmark : inpS.etag.isSome = true)
    (hS : inpS.stampWriteFails = false) :
    (opkg_validate_cached_file pre inpF).2.ret
      = (opkg_validate_cached_file pre inpS).2.ret ∧
    (opkg_validate_cached_file pre inpF).2.resumeSet
      = (opkg_validate_cached_file pre inpS).2.resumeSet ∧
    (opkg_validate_cached_file pre inpF).2.unlinked
      = (opkg_validate_cached_file pre inpS).2.unlinked ∧
    (opkg_validate_cached_file pre inpF).2.finalCacheExists
      = (opkg_validate_cached_file pre inpS).2.finalCacheExists ∧
    (opkg_validate_cached_file pre inpF).2.finalCacheLen
      = (opkg_validate_cached_file pre inpS).2.finalCacheLen ∧
    (opkg_validate_cached_file pre inpF).1
      = (opkg_validate_cached_file pre inpS).1 ∧
    (opkg_validate_cached_file pre inpF).2.loggedStampError = true := by
  subst hFS
  simp only [opkg_validate_cached_file, cacheFresh_set_swf]
  simp only [htr, hS, Bool.false_eq_true, if_false, hfresh, hmark, Bool.not_false,
    Bool.true_and, Bool.and_true, Bool.and_false]
  split_ifs <;> exact ⟨rfl, rfl, rfl, rfl, rfl, rfl, rfl⟩

/-- Witness for C7 on a stale 400-byte cache with marker `"x"`. -/
theorem C7_stamp_write_nonfatal_witness :
    (opkg_validate_cached_file (bodyConfig 0)
        { transportFails := false, srcSize := 1000, etag := some ['x'],
          cacheExists := true, cacheLen := 400, stampFile := some ['a'],
          fopenFails := false, stampWriteFails := true }).2.ret
      = (opkg_validate_cached_file (bodyConfig 0)
        { transportFails := false, srcSize := 1000, etag := some ['x'],
          cacheExists := true, cacheLen := 400, stampFile := some ['a'],
          fopenFails := false, stampWriteFails := false }).2.ret ∧
    (opkg_validate_cached_file (bodyConfig 0)
        { transportFails := false, srcSize := 1000, etag := some ['x'],
          cacheExists := true, cacheLen := 400, stampFile := some ['a'],
          fopenFails := false, stampWriteFails := true }).2.resumeSet
      = (opkg_validate_cached_file (bodyConfig 0)
        { transportFails := false, srcSize := 1000, etag := some ['x'],
          cacheExists := true, cacheLen := 400, stampFile := some ['a'],
          fopenFails := false, stampWriteFails := false }).2.resumeSet ∧
    (opkg_validate_cached_file (bodyConfig 0)
        { transportFails := false, srcSize := 1000, etag := some ['x'],
          cacheExists := true, cacheLen := 400, stampFile := some ['a'],
          fopenFails := false, stampWriteFails := true }).2.unlinked
      = (opkg_validate_cached_file (bodyConfig 0)
        { transportFails := false, srcSize := 1000, etag := some ['x'],
          cacheExists := true, cacheLen := 400, stampFile := some ['a'],
          fopenFails := false, stampWriteFails := false }).2.unlinked ∧
    (opkg_validate_cached_file (bodyConfig 0)
        { transportFails := false, srcSize := 1000, etag := some ['x'],
          cacheExists := true, cacheLen := 400, stampFile := some ['a'],
          fopenFails := false, stampWriteFails := true }).2.finalCacheExists
      = (opkg_validate_cached_file (bodyConfig 0)
        { transportFails := false, srcSize := 1000, etag := some ['x'],
          cacheExists := true, cacheLen := 400, stampFile := some ['a'],
          fopenFails := false, stampWriteFails := false }).2.finalCacheExists ∧
    (opkg_validate_cached_file (bodyConfig 0)
        { transportFails := false, srcSize := 1000, etag := some ['x'],
          cacheExists := true, cacheLen := 400, stampFile := some ['a'],
          fopenFails := false, stampWriteFails := true }).2.finalCacheLen
      = (opkg_validate_cached_file (bodyConfig 0)
        { transportFails := false, srcSize := 1000, etag := some ['x'],
          cacheExists := true, cacheLen := 400, stampFile := some ['a'],
          fopenFails := false, stampWriteFails := false }).2.finalCacheLen ∧
    (opkg_validate_cached_file (bodyConfig 0)
        { transportFails := false, srcSize := 1000, etag := some ['x'],
          cacheExists := true, cacheLen := 400, stampFile := some ['a'],
          fopenFails := false, stampWriteFails := true }).1
      = (opkg_validate_cached_file (bodyConfig 0)
        { transportFails := false, srcSize := 1000, etag := some ['x'],
          cacheExists := true, cacheLen := 400, stampFile := some ['a'],
          fopenFails := false, stampWriteFails := false }).1 ∧
    (opkg_validate_cached_file (bodyConfig 0)
        { transportFails := false, srcSize := 1000, etag := some ['x'],
          cacheExists := true, cacheLen := 400, stampFile := some ['a'],
          fopenFails := false, stampWriteFails := true }).2.loggedStampError = true :=
  C7_stamp_write_nonfatal (bodyConfig 0)
    { transportFails := false, srcSize := 1000, etag := some ['x'],
      cacheExists := true, cacheLen := 400, stampFile := some ['a'],
      fopenFails := false, stampWriteFails := true }
    { transportFails := false, srcSize := 1000, etag := some ['x'],
      cacheExists := true, cacheLen := 400, stampFile := some ['a'],
      fopenFails := false, stampWriteFails := false }
    rfl rfl (by simp [cacheFresh, check_file_stamp, checkStampLoop, STAMP_BUF_SIZE]) rfl rfl

/-- Claim C10: on every exit path of the validator — transport failure,
file-open failure, resume and complete — the metadata-only options
(callbacks, header inclusion, body suppression) are reset to the
body-transfer state, so starting from a body-transfer handle state only
the resume offset can differ afterwards, and it is set exactly when the
verdict is a resume (return code 1). -/
theorem C10_handle_state (r : Int) (inp : ValInput) :
    (opkg_validate_cached_file (bodyConfig r) inp).1
      = bodyConfig (match (opkg_validate_cached_file (bodyConfig r) inp).2.resumeSet with
                    | some n => (n : Int)
                    | none => r) ∧
    ((opkg_validate_cached_file (bodyConfig r) inp).2.resumeSet.isSome
      ↔ (opkg_validate_cached_file (bodyConfig r) inp).2.ret = 1) := by
  simp only [opkg_validate_cached_file, resume_len_eq]
  by_cases htr : inp.transportFails = true
  · rw [if_pos htr]
    exact ⟨rfl, by simp⟩
  · rw [if_neg htr]
    by_cases hop : inp.fopenFails = true
    · rw [if_pos hop]
      exact ⟨rfl, by simp⟩
    · rw [if_neg hop]
      by_cases hcmp : ((localLenAtResume inp : Int) < inp.srcSize)
      · rw [if_pos hcmp]
        exact ⟨rfl, by simp⟩
      · rw [if_neg hcmp]
        exact ⟨rfl, by simp⟩

/-- Claim C2, evaluation at the failing inputs: with the remote size
unknown (-1) the code returns 0 (Complete) and performs no transfer, both
when no cache file exists (an empty file is created and reported
complete) and when a fresh cache file of length 5 exists — the claimed
ResumeFrom behaviour never happens. -/
theorem C2_unknown_size_code_eval :
    (opkg_validate_cached_file (bodyConfig 0)
        { transportFails := false, srcSize := -1, etag := none,
          cacheExists := false, cacheLen := 0, stampFile := none,
          fopenFails := false, stampWriteFails := false }).2.ret = 0 ∧
    (opkg_validate_cached_file (bodyConfig 0)
        { transportFails := false, srcSize := -1, etag := none,
          cacheExists := false, cacheLen := 0, stampFile := none,
          fopenFails := false, stampWriteFails := false }).2.resumeSet = none ∧
    (opkg_validate_cached_file (bodyConfig 0)
        { transportFails := false, srcSize := -1, etag := none,
          cacheExists := false, cacheLen := 0, stampFile := none,
          fopenFails := false, stampWriteFails := false }).2.finalCacheLen = 0 ∧
    opkg_download_backend (bodyConfig 0)
        { transportFails := false, srcSize := -1, etag := none,
          cacheExists := false, cacheLen := 0, stampFile := none,
          fopenFails := false, stampWriteFails := false } true false false
      = (0, false) ∧
    (opkg_validate_cached_file (bodyConfig 0)
        { transportFails := false, srcSize := -1, etag := some ['a'],
          cacheExists := true, cacheLen := 5, stampFile := some ['a'],
          fopenFails := false, stampWriteFails := false }).2.ret = 0 ∧
    (opkg_validate_cached_file (bodyConfig 0)
        { transportFails := false, srcSize := -1, etag := some ['a'],
          cacheExists := true, cacheLen := 5, stampFile := some ['a'],
          fopenFails := false, stampWriteFails := false }).2.resumeSet = none := by
  refine ⟨?_, ?_, ?_, ?_, ?_, ?_⟩
  · simp [opkg_validate_cached_file, cacheFresh]
  · simp [opkg_validate_cached_file, cacheFresh]
  · simp [opkg_validate_cached_file, cacheFresh]
  · simp [opkg_download_backend, opkg_validate_cached_file, cacheFresh]
  · simp [opkg_validate_cached_file, cacheFresh, check_file_stamp, checkStampLoop,
      STAMP_BUF_SIZE]
  · simp [opkg_validate_cached_file, cacheFresh, check_file_stamp, checkStampLoop,
      STAMP_BUF_SIZE]

/-- Helper: an append whose two sides both avoid a leading newline avoids
a leading newline. -/
theorem head?_append_of_ne (Y Z : Bytes) (hY : Y.head? ≠ some '\n')
    (hZ : Z.head? ≠ some '\n') : (Y ++ Z).head? ≠ some '\n' := by
  cases Y with
  | nil => simpa using hZ
  | cons a t => simpa using hY

/-- Helper: a message of the form `P ++ B` where `P` ends in a space and
`B` ends in exactly one newline ends in exactly one newline. -/
theorem endsOne_append (P B : Bytes) (hP : P.reverse.head? = some ' ')
    (h1 : B.reverse.head? = some '\n')
    (h2 : B.reverse.tail.head? ≠ some '\n') :
    endsWithExactlyOneNewline (P ++ B) := by
  unfold endsWithExactlyOneNewline
  rw [List.reverse_append]
  obtain ⟨c, t, hct⟩ : ∃ c t, B.reverse = c :: t := by
    cases hB : B.reverse with
    | nil =>
      rw [hB] at h1
      simp at h1
    | cons c t => exact ⟨c, t, rfl⟩
  rw [hct] at h1 h2 ⊢
  simp only [List.head?_cons, Option.some.injEq] at h1
  subst h1
  refine ⟨by simp, ?_⟩
  simp only [List.tail_cons] at h2
  simp only [List.cons_append, List.tail_cons]
  apply head?_append_of_ne
  · exact h2
  · rw [hP]
    simp

/-- C8 counterexample: when the transport error buffer itself ends in two
newlines, the composed message (which appends nothing in that case) also
ends in two newlines, refuting `exactly one trailing newline` as
stated. -/
theorem C8_counterexample :
    curl_err_text ['e','\n','\n'] ['g'] = ['e','\n','\n'] ∧
    ¬ endsWithExactlyOneNewline
        (log_curl_download_error ['m'] ['u'] ['e','\n','\n'] ['g']) := by
  constructor
  · decide
  · decide

/-- Claim C8 (amended): the composed error message uses the transport
detail buffer when non-empty and the generic description otherwise, and
it ends in exactly one trailing newline provided the generic description
does not end in a newline (the source documents that `curl_easy_strerror`
never does) and the detail buffer does not already end in two consecutive
newlines; no extra newline is appended when the buffer ends in one. -/
theorem C8_error_message (m u buf gen : Bytes)
    (hgen : gen.getLast? ≠ some '\n')
    (hbuf : ¬ (buf.getLast? = some '\n' ∧ buf.reverse.tail.head? = some '\n')) :
    (buf ≠ [] → curl_err_text buf gen = buf) ∧
    (buf = [] → curl_err_text buf gen = gen) ∧
    endsWithExactlyOneNewline (log_curl_download_error m u buf gen) := by
  refine ⟨fun hne => ?_, fun hnil => ?_, ?_⟩
  · simp [curl_err_text, hne]
  · subst hnil
    simp [curl_err_text]
  · have hsplit : log_curl_download_error m u buf gen
        = (m ++ [' '] ++ u ++ [':', ' '])
          ++ (curl_err_text buf gen
              ++ (if has_trailing_newline buf then ([] : Bytes) else ['\n'])) := by
      simp [log_curl_download_error, List.append_assoc]
    rw [hsplit]
    apply endsOne_append
    · simp [List.reverse_append]
    · by_cases hb : buf = []
      · subst hb
        simp [curl_err_text, has_trailing_newline, List.reverse_append]
      · by_cases hnl : buf.getLast? = some '\n'
        · have htt : has_trailing_newline buf = true := by
            simp [has_trailing_newline, hnl, List.length_eq_zero, hb]
          simp [curl_err_text, hb, htt, List.head?_reverse, hnl]
        · have htt : has_trailing_newline buf = false := by
            simp [has_trailing_newline, hnl]
          simp [curl_err_text, hb, htt, List.reverse_append]
    · by_cases hb : buf = []
      · subst hb
        have htt : has_trailing_newline ([] : Bytes) = false := by
          simp [has_trailing_newline]
        simp only [htt, Bool.false_eq_true, if_false, curl_err_text, List.length_nil,
          ne_eq, not_true_eq_false, if_false, ite_self]
        simp only [List.reverse_append, List.reverse_cons, List.reverse_nil,
          List.nil_append, List.cons_append, List.tail_cons]
        simpa [List.head?_reverse] using hgen
      · have htext : curl_err_text buf gen = buf := by
          simp [curl_err_text, hb]
        by_cases hnl : buf.getLast? = some '\n'
        · have htt : has_trailing_newline buf = true := by
            simp [has_trailing_newline, hnl, List.length_eq_zero, hb]
          have h2 : ¬ buf.reverse.tail.head? = some '\n' := fun hh => hbuf ⟨hnl, hh⟩
          simpa [htext, htt] using h2
        · have htt : has_trailing_newline buf = false := by
            simp [has_trailing_newline, hnl]
          simp only [htext, htt, Bool.false_eq_true, if_false]
          simp only [List.reverse_append, List.reverse_cons, List.reverse_nil,
            List.nil_append, List.cons_append, List.tail_cons]
          simpa [List.head?_reverse] using hnl

/-- Witness for C8 with a newline-free non-empty error buffer. -/
theorem C8_error_message_witness :
    ((['e'] : Bytes) ≠ [] → curl_err_text ['e'] ['g'] = ['e']) ∧
    ((['e'] : Bytes) = [] → curl_err_text ['e'] ['g'] = ['g']) ∧
    endsWithExactlyOneNewline (log_curl_download_error ['m'] ['u'] ['e'] ['g']) :=
  C8_error_message ['m'] ['u'] ['e'] ['g'] (by decide) (by decide)
